import Mathlib

/-!
Verification of the IslamKids question-answering assistant (`src/main.py`).

The Python program is glue code around external services.  We embed the glue
faithfully:

* Python strings are Lean `String`s; `str.lower()` / `str.strip()` /
  `str.capitalize()` and the `in` substring operator are modelled on the
  character list of the string.
* JSON values appearing in the knowledge base are modelled by `JValue`
  (strings, integers, booleans, null); the Python `str()` conversion used by
  f-strings is `JValue.pyStr` and Python truthiness is `JValue.pyTruthy`.
* External collaborators (the rapidfuzz scorer, the FAISS similarity search,
  the OpenAI chat model, the filesystem existence check) are parameters of the
  corresponding functions, exactly at the call boundary the source uses.
* The Streamlit request handler (lines 168-223 of `main.py`) is `pipeline`; it
  returns a record of everything observable: which external calls were made,
  what was displayed, and whether the run died with the `NameError` that the
  source raises when line 194 reads `filtered_docs` on a branch that never
  assigned it.
-/

namespace IslamKids

/-! ## Python string primitives -/

/-- Lower-casing of one character, as CPython does for ASCII letters
(`str.lower`). -/
def pyCharLower (c : Char) : Char :=
  if 65 ≤ c.toNat ∧ c.toNat ≤ 90 then Char.ofNat (c.toNat + 32) else c

/-- Upper-casing of one character (`str.upper` on ASCII letters). -/
def pyCharUpper (c : Char) : Char :=
  if 97 ≤ c.toNat ∧ c.toNat ≤ 122 then Char.ofNat (c.toNat - 32) else c

/-- Python `s.lower()`. -/
def pyLower (s : String) : String :=
  String.mk (s.data.map pyCharLower)

/-- The characters Python `str.strip()` removes. -/
def pySpace (c : Char) : Bool :=
  c == ' ' || c == '\t' || c == '\n' || c == '\r' || c == '\x0b' || c == '\x0c'

/-- Python `s.strip()`: drop whitespace from both ends. -/
def pyStrip (s : String) : String :=
  String.mk (((s.data.dropWhile pySpace).reverse.dropWhile pySpace).reverse)

/-- Python `s.split(sep)` for a one-character separator. -/
def splitOnChar (sep : Char) : List Char → List (List Char)
  | [] => [[]]
  | c :: cs =>
    if c == sep then [] :: splitOnChar sep cs
    else
      match splitOnChar sep cs with
      | [] => [[c]]
      | t :: ts => (c :: t) :: ts

/-- Python `s.split(sep, 1)` for a one-character separator: `none` when the
separator does not occur (so `sep in s` is false), otherwise the parts before
and after its first occurrence. -/
def splitFirstAt (sep : Char) : List Char → Option (List Char × List Char)
  | [] => none
  | c :: cs =>
    if c == sep then some ([], cs)
    else
      match splitFirstAt sep cs with
      | none => none
      | some (before, after) => some (c :: before, after)

/-- Python `s.capitalize()`: first character upper-cased, the rest
lower-cased. -/
def pyCapitalize (s : String) : String :=
  match s.data with
  | [] => ""
  | c :: cs => String.mk (pyCharUpper c :: cs.map pyCharLower)

/-- Does `hay` start with `needle`?  (Helper for the Python `in` operator.) -/
def listStarts : List Char → List Char → Bool
  | [], _ => true
  | _ :: _, [] => false
  | a :: tl1, b :: tl2 => a == b && listStarts tl1 tl2

/-- Does `hay` contain `needle` as a contiguous run?  (Helper for `in`.) -/
def listIn (needle : List Char) : List Char → Bool
  | [] => listStarts needle []
  | c :: cs => listStarts needle (c :: cs) || listIn needle cs

/-- The Python substring test `needle in hay`. -/
def pyIn (needle hay : String) : Bool :=
  listIn needle.data hay.data

/-! ## JSON values -/

/-- The JSON scalar values the knowledge base can hold. -/
inductive JValue where
  | str (s : String)
  | num (n : Int)
  | bool (b : Bool)
  | null
deriving DecidableEq, Repr

/-- Python `str(v)` as used by f-string interpolation. -/
def JValue.pyStr : JValue → String
  | .str s => s
  | .num n => toString n
  | .bool b => if b then "True" else "False"
  | .null => "None"

/-- Python truthiness of a JSON value (`if audio_path:`). -/
def JValue.pyTruthy : JValue → Bool
  | .str s => !s.data.isEmpty
  | .num n => n != 0
  | .bool b => b
  | .null => false

/-- First-match association-list lookup (Python `dict.__getitem__` /
`dict.get`; keys are unique in a Python dict, so first match is the match). -/
def alookup {α : Type} : List (String × α) → String → Option α
  | [], _ => none
  | (k0, v) :: rest, k => if k0 = k then some v else alookup rest k

/-- A langchain `Document`: page content plus a metadata dict. -/
structure Document where
  page_content : String
  metadata : List (String × JValue)
deriving DecidableEq, Repr

/-! ## Guardrail keywords (`SAFE_KEYWORDS`, main.py lines 24-45) -/

def SAFE_KEYWORDS : List String := [
  "baby", "birth", "child", "sleep", "dream", "ear", "eye", "brain",
  "body", "heart", "health", "water", "sky", "sun", "moon", "earth",
  "wind", "plant", "animal", "bird", "fish", "weather", "day", "night",
  "stars", "bones", "food", "teeth", "color", "light", "dark", "eyesight",
  "smell", "touch", "hear", "sound", "laugh", "cry", "family", "mom",
  "dad", "school", "friend", "kindness", "honesty", "gratitude",
  "manners", "duas", "Islam", "Allah", "Prophet", "Quran",
  "hygiene", "clean", "cleanliness", "wash", "bath", "soap", "toothbrush",
  "teeth", "toilet", "wudu", "ablution", "tidy", "germs", "sanitary",
  "sneeze", "cough", "handwashing", "grooming", "shower",
  "respect", "obedience", "truth", "mercy", "patience", "forgiveness",
  "humility", "helping", "sharing", "eyes", "ears", "nose", "mouth",
  "hand", "skin", "hair", "feelings", "sad", "happy", "angry", "fear",
  "love", "mountains", "sea", "river", "ocean", "rain", "tree", "flower",
  "fruit", "seed", "cat", "dog", "camel", "horse", "bee", "ant", "butterfly",
  "drink", "milk", "eat", "clothes", "shoes", "home", "book", "toy",
  "travel", "parent", "brother", "sister", "teacher", "neighbour",
  "guest", "grandma", "grandpa", "alphabet", "numbers", "shape",
  "time", "why", "how", "what", "wazu", "duwa", "namaz", "janamaz",
  "guardian", "phone", "emergency", "contact"]

/-! ## Guardrail (main.py lines 53-64)

The rapidfuzz scorer (`fuzz.partial_ratio`, a 0-100 score) is an external
library; it enters as the parameter `scorer`. -/

/-- `normalize_query` (line 53): `query.strip().lower()`. -/
def normalize_query (query : String) : String :=
  pyLower (pyStrip query)

/-- Loop of rapidfuzz `process.extractOne`: keep the best (choice, score),
an earlier choice winning ties. -/
def extractOneAux (scorer : String → String → Nat) (query : String) :
    List String → String × Nat → String × Nat
  | [], best => best
  | c :: cs, best =>
    if best.2 < scorer query c then extractOneAux scorer query cs (c, scorer query c)
    else extractOneAux scorer query cs best

/-- rapidfuzz `process.extractOne(query, choices, scorer)`: `none` only on an
empty choice list, otherwise the best-scoring choice with its score. -/
def extractOne (scorer : String → String → Nat) (query : String) :
    List String → Option (String × Nat)
  | [] => none
  | c :: cs => some (extractOneAux scorer query cs (c, scorer query c))

/-- `fuzzy_match_keywords` (lines 56-61). -/
def fuzzy_match_keywords (scorer : String → String → Nat) (query : String) :
    Option String :=
  match extractOne scorer query SAFE_KEYWORDS with
  | some (best, score) => if 80 ≤ score then some best else none
  | none => none

/-- `is_question_safe` (lines 63-64). -/
def is_question_safe (scorer : String → String → Nat) (query : String) : Bool :=
  (fuzzy_match_keywords scorer query).isSome

/-- The best score of the query against the keyword list — the quantity the
specification speaks about. -/
def bestScore (scorer : String → String → Nat) (query : String) : Nat :=
  (SAFE_KEYWORDS.map (scorer query)).foldl Nat.max 0

/-! ## Retrieval filters (main.py lines 66-70) -/

/-- `filter_documents_by_topic` (lines 66-67): keep documents whose lowercased
content contains some keyword, the keyword written exactly as in
`SAFE_KEYWORDS`. -/
def filter_documents_by_topic (docs : List Document) : List Document :=
  docs.filter (fun doc => SAFE_KEYWORDS.any (fun kw => pyIn kw (pyLower doc.page_content)))

/-- `fallback_keyword_search` (lines 69-70). -/
def fallback_keyword_search (query : String) (full_docs : List Document) :
    List Document :=
  full_docs.filter (fun doc => pyIn (pyLower query) (pyLower doc.page_content))

/-- `call_openai_api` (lines 72-77); the remote chat model is the parameter
`llm`, called on the exact prompt the source builds. -/
def call_openai_api (llm : String → String) (query : String)
    (docs : List Document) ( prompt_prefix : String) : String :=
  llm ("\n--- FINAL PROMPT TO OPENAI ---\n" ++ prompt_prefix ++
    "Only use the context below to answer the question. If the answer is not in the context, say \x27I don\x27t know\x27.\n\nContext:\n" ++
    String.intercalate "\n\n" (docs.map (fun doc => doc.page_content)) ++
    "\n\nQuestion: " ++ query ++ "\nAnswer:")

/-! ## Knowledge loader (`load_json_documents`, main.py lines 78-96) -/

/-- `item.get(k, dflt)`. -/
def itemGet (item : List (String × JValue)) (k : String) (dflt : JValue) : JValue :=
  match alookup item k with
  | some v => v
  | none => dflt

/-- The `content_parts` loop: every field except `category` and `audio`
becomes a `"Key: value"` line. -/
def mkContent (item : List (String × JValue)) : String :=
  String.intercalate "\n" (item.foldl
    (fun parts kv =>
      if kv.1 = "category" ∨ kv.1 = "audio" then parts
      else parts ++ [pyCapitalize kv.1 ++ ": " ++ kv.2.pyStr])
    [])

/-- The metadata dict built for each item (lines 88-94). -/
def mkMetadata (item : List (String × JValue)) : List (String × JValue) :=
  [("category", itemGet item "category" (JValue.str "unknown")),
   ("audio", itemGet item "audio" (JValue.str "")),
   ("arabic", itemGet item "arabic" (JValue.str "")),
   ("usage", itemGet item "usage" (JValue.str "")),
   ("translation", itemGet item "translation" (JValue.str ""))]

/-- One loop iteration of `load_json_documents`. -/
def mkDocument (item : List (String × JValue)) : Document :=
  ⟨mkContent item, mkMetadata item⟩

/-- `load_json_documents` on the parsed JSON array (a list of objects, each an
ordered key/value list). -/
def load_json_documents (raw : List (List (String × JValue))) : List Document :=
  raw.foldl (fun docs item => docs ++ [mkDocument item]) []

/-! ## Guardian info (main.py lines 99-121) -/

/-- Values of the guardian-info JSON object: strings or one flat nested
object (`emergency_contact`). -/
inductive GValue where
  | str (s : String)
  | obj (entries : List (String × String))
deriving DecidableEq, Repr

/-- Python `str()` of a guardian value (a dict renders as its repr). -/
def GValue.pyStr : GValue → String
  | .str s => s
  | .obj entries =>
    "\x7b" ++ String.intercalate ", "
      (entries.map (fun kv => "\x27" ++ kv.1 ++ "\x27: \x27" ++ kv.2 ++ "\x27")) ++ "\x7d"

/-- The parsed guardian-info mapping. -/
abbrev GInfo := List (String × GValue)

/-- `guardian_info.get(k, \x27N/A\x27)` rendered into the f-string. -/
def giGet (gi : GInfo) (k : String) : String :=
  match alookup gi k with
  | some v => v.pyStr
  | none => "N/A"

/-- `guardian_info.get(k, \x7b\x7d)`: the nested dict, or empty when absent.
(When the stored value is a plain string the source would raise
`AttributeError` on the subsequent `.get`; no claim exercises that input.) -/
def giGetObj (gi : GInfo) (k : String) : List (String × String) :=
  match alookup gi k with
  | some (.obj entries) => entries
  | some (.str _) => []
  | none => []

/-- `.get(k, \x27N/A\x27)` on the nested emergency-contact dict. -/
def ecGet (entries : List (String × String)) (k : String) : String :=
  match alookup entries k with
  | some v => v
  | none => "N/A"

/-- The trigger words of `get_guardian_response` (line 106). -/
def GUARDIAN_TRIGGERS : List String :=
  ["mom", "dad", "guardian", "emergency", "phone", "contact", "father", "mother", "parent"]

/-- The f-string block returned by `get_guardian_response` (lines 108-120). -/
def guardianBlock (gi : GInfo) : String :=
  "\n**👨‍👩‍👧 Guardian Info:**\n\n- **Primary Guardian:** " ++
  giGet gi "guardian_name" ++ " (" ++ giGet gi "relationship" ++
  ")\n- **Phone:** " ++ giGet gi "phone" ++
  "\n\n**📞 Emergency Contact:**\n\n- **Name:** " ++
  ecGet (giGetObj gi "emergency_contact") "name" ++ " (" ++
  ecGet (giGetObj gi "emergency_contact") "relationship" ++
  ")\n- **Phone:** " ++ ecGet (giGetObj gi "emergency_contact") "phone" ++
  "\n\n**🏡 Address:** " ++ giGet gi "address" ++ "\n"

/-- The `for key in [...]` loop of `get_guardian_response`: return the block
at the first trigger contained in the query, else fall through to `""`. -/
def guardianLoop (query : String) (gi : GInfo) : List String → String
  | [] => ""
  | k :: ks => if pyIn k query then guardianBlock gi else guardianLoop query gi ks

/-- `get_guardian_response` (lines 105-121). -/
def get_guardian_response (query : String) (gi : GInfo) : String :=
  guardianLoop query gi GUARDIAN_TRIGGERS

/-- `load_guardian_info` (lines 99-103): `fileExists` is the
`os.path.exists` answer, `fileContent` what `json.load` would parse. -/
def load_guardian_info (fileExists : Bool) (fileContent : GInfo) : GInfo :=
  if fileExists then fileContent else []

/-! ## Audio resolver (main.py lines 194-223)

The loop state: `audio_path` and `arabic_text` are Python locals that may be
unassigned (`none`); `usedParse` records whether the content re-parsing
fallback branch ever ran. -/

structure RState where
  ap : Option JValue
  arabicText : Option JValue
  usedParse : Bool
deriving DecidableEq, Repr

/-- `dict[k] = v` (overwrite in place, append if new). -/
def pyDictSet : List (String × String) → String → String → List (String × String)
  | [], k, v => [(k, v)]
  | (k0, v0) :: rest, k, v =>
    if k0 = k then (k0, v) :: rest else (k0, v0) :: pyDictSet rest k v

/-- `dict.get(k, dflt)` on a string dict. -/
def dictGet (entries : List (String × String)) (k : String) (dflt : String) : String :=
  match alookup entries k with
  | some v => v
  | none => dflt

/-- The `content_dict` re-parse of a document's content (lines 204-208):
split each line at its first colon, strip/lowercase the key, strip the
value. -/
def parseContentDict (content : String) : List (String × String) :=
  (splitOnChar '\n' content.data).foldl
    (fun dict line =>
      match splitFirstAt ':' line with
      | some (k, v) =>
        pyDictSet dict (pyLower (pyStrip (String.mk k))) (pyStrip (String.mk v))
      | none => dict)
    []

/-- The per-document branch of the resolver loop (lines 198-212).
`metadata["arabic"]` on a document that has `audio` but no `arabic` key
raises `KeyError`, which only the outer handler catches — hence `.error`. -/
def docStep (doc : Document) (st : RState) : Except RState RState :=
  match alookup doc.metadata "audio" with
  | some av =>
    match alookup doc.metadata "arabic" with
    | some ar => .ok { st with ap := some av, arabicText := some ar }
    | none => .error { st with ap := some av }
  | none =>
    .ok { st with
          ap := some (JValue.str (dictGet (parseContentDict doc.page_content) "audio" "")),
          usedParse := true }

inductive StepOut where
  | breakNow
  | continueLoop
  | raiseExn
deriving DecidableEq, Repr

/-- `if audio_path and os.path.exists(audio_path): break` (line 213).
`os.path.exists` on a non-string raises `TypeError` (`.raiseExn`). -/
def existsCheck (existsFn : String → Bool) (st : RState) : StepOut :=
  match st.ap with
  | none => .continueLoop
  | some v =>
    if v.pyTruthy then
      match v with
      | .str s => if existsFn s then .breakNow else .continueLoop
      | _ => .raiseExn
    else .continueLoop

inductive LoopOut where
  | broke (st : RState)
  | finished (st : RState)
  | raised (st : RState)
deriving DecidableEq, Repr

/-- The `for doc in filtered_docs` loop (lines 197-214). -/
def resolveAux (existsFn : String → Bool) : List Document → RState → LoopOut
  | [], st => .finished st
  | doc :: rest, st =>
    match docStep doc st with
    | .error st2 => .raised st2
    | .ok st2 =>
      match existsCheck existsFn st2 with
      | .raiseExn => .raised st2
      | .breakNow => .broke st2
      | .continueLoop => resolveAux existsFn rest st2

inductive AudioOutcome where
  | offered (path : String) (arabic : JValue)
  | noAudio
  | aborted
deriving DecidableEq, Repr

/-- What the audio block observably did: audio offered (path + Arabic text
written out), silently no audio, or the outer `except` fired (the
"Audio unavailable" warning). -/
structure AudioResult where
  outcome : AudioOutcome
  usedParse : Bool
deriving DecidableEq, Repr

/-- Lines 217-221 after the loop: re-test the path and display.  On display,
`st.write(arabic_text)` raises `NameError` when `arabic_text` was never
assigned — caught by the outer handler. -/
def audioPostOutcome (existsFn : String → Bool) (st : RState) : AudioOutcome :=
  match st.ap with
  | none => .noAudio
  | some v =>
    if v.pyTruthy then
      match v with
      | .str s =>
        if existsFn s then
          match st.arabicText with
          | some a => .offered s a
          | none => .aborted
        else .noAudio
      | _ => .aborted
    else .noAudio

/-- The audio section's result when the loop ended without an exception. -/
def audioPost (existsFn : String → Bool) (st : RState) : AudioResult :=
  ⟨audioPostOutcome existsFn st, st.usedParse⟩

/-- Dispatch on how the loop ended: a raised exception reaches the outer
`except` (lines 222-223) and aborts the whole audio section. -/
def resolveFinish (existsFn : String → Bool) : LoopOut → AudioResult
  | .raised st => ⟨.aborted, st.usedParse⟩
  | .broke st => audioPost existsFn st
  | .finished st => audioPost existsFn st

/-- The whole audio-resolver block (lines 194-223) on a non-empty
`filtered_docs`. -/
def resolveAudio (existsFn : String → Bool) (docs : List Document) : AudioResult :=
  resolveFinish existsFn (resolveAux existsFn docs ⟨none, none, false⟩)

/-! ## The request pipeline (main.py lines 168-223) -/

/-- Everything observable about one run of the Streamlit request handler. -/
structure PipeResult where
  warned : Bool
  guardianLookup : Bool
  guardianShown : Option String
  searchCalled : Bool
  filterCalled : Bool
  fallbackCalled : Bool
  llmCalled : Bool
  answer : Option String
  filtered_docs : Option (List Document)
  nameError : Bool
  audio : Option AudioResult
deriving DecidableEq, Repr

/-- One request (lines 168-223).  External collaborators are parameters:
`scorer` (rapidfuzz), `search` (FAISS `similarity_search`), `llm` (OpenAI),
`existsFn` (`os.path.exists`).  On the guardrail-warning branch and on the
guardian branch, line 194 reads `filtered_docs` which was never assigned in
that run, so the script dies with `NameError` (`nameError := true`) — after
the warning / the guardian block has already been displayed. -/
def pipeline (scorer : String → String → Nat) (search : String → Nat → List Document)
    (llm : String → String) (full_doc_list : List Document) ( prompt_prefix : String)
    (guardian_info : GInfo) (existsFn : String → Bool) (user_question : String) :
    PipeResult :=
  if user_question = "" then
    { warned := false, guardianLookup := false, guardianShown := none,
      searchCalled := false, filterCalled := false, fallbackCalled := false,
      llmCalled := false, answer := none, filtered_docs := none,
      nameError := false, audio := none }
  else
    let query := normalize_query user_question
    if is_question_safe scorer query = false then
      { warned := true, guardianLookup := false, guardianShown := none,
        searchCalled := false, filterCalled := false, fallbackCalled := false,
        llmCalled := false, answer := none, filtered_docs := none,
        nameError := true, audio := none }
    else
      let guardian_answer := get_guardian_response query guardian_info
      if guardian_answer ≠ "" then
        { warned := false, guardianLookup := true, guardianShown := some guardian_answer,
          searchCalled := false, filterCalled := false, fallbackCalled := false,
          llmCalled := false, answer := none, filtered_docs := none,
          nameError := true, audio := none }
      else
        let retrieved_docs := search query 2
        let filtered0 := filter_documents_by_topic retrieved_docs
        let fb := filtered0.isEmpty
        let filtered_docs := if fb then fallback_keyword_search query full_doc_list else filtered0
        let noDocs := filtered_docs.isEmpty
        { warned := false, guardianLookup := true, guardianShown := none,
          searchCalled := true, filterCalled := true, fallbackCalled := fb,
          llmCalled := !noDocs,
          answer := some (if noDocs then "I don\x27t know."
                          else call_openai_api llm query filtered_docs prompt_prefix),
          filtered_docs := some filtered_docs, nameError := false,
          audio := if noDocs then none else some (resolveAudio existsFn filtered_docs) }

/-- The state a loop outcome carries. -/
def LoopOut.state : LoopOut → RState
  | .broke st => st
  | .finished st => st
  | .raised st => st

/-! ## Specification-side definitions

Used only to state theorems; the source-side definitions above are the
authority they are compared with. -/

/-- The audio path a document's metadata carries (empty when none or not a
string). -/
def docAudioStr (d : Document) : String :=
  match alookup d.metadata "audio" with
  | some (JValue.str s) => s
  | _ => ""

/-- The Arabic text a document's metadata carries. -/
def docArabic (d : Document) : JValue :=
  (alookup d.metadata "arabic").getD JValue.null

/-- Does this document resolve to an existing audio file? -/
def audioHit (existsFn : String → Bool) (d : Document) : Bool :=
  !(docAudioStr d).data.isEmpty && existsFn (docAudioStr d)

/-- A document whose metadata carries a string audio path and an arabic
entry — what every loader-built document satisfies. -/
def goodAudioMeta (d : Document) : Prop :=
  (∃ s, alookup d.metadata "audio" = some (JValue.str s)) ∧
    (alookup d.metadata "arabic").isSome = true

/-- Does the normalized query contain a guardian trigger word? -/
def hasTrigger (q : String) : Bool :=
  GUARDIAN_TRIGGERS.any (fun k => pyIn k q)

/-! ## Concrete inputs used by witnesses and counterexamples -/

/-- A scorer giving every keyword score 0 (everything out of scope). -/
def scorerZero : String → String → Nat := fun _ _ => 0

/-- A scorer giving every keyword score 100 (everything in scope). -/
def scorerFull : String → String → Nat := fun _ _ => 100

/-- A similarity search that returns no documents. -/
def searchNone : String → Nat → List Document := fun _ _ => []

/-- A stub remote model. -/
def llmStub : String → String := fun _ => "LLM-ANSWER"

/-- A filesystem on which no path exists. -/
def fsNone : String → Bool := fun _ => false

/-- A document whose content is just the word `water`. -/
def docWater : Document := ⟨"water", []⟩

/-- A document whose content is just the word `Quran`. -/
def docQuran : Document := ⟨"Quran", []⟩

/-- A document carrying an audio path but no arabic entry in metadata. -/
def docAudioOnly : Document := ⟨"", [("audio", JValue.str "a.mp3")]⟩

/-- A well-formed document with audio and arabic metadata. -/
def docAudioFull : Document :=
  ⟨"", [("audio", JValue.str "b.mp3"), ("arabic", JValue.str "bismillah")]⟩

/-- A filesystem on which exactly the two test audio files exist. -/
def fsAudio : String → Bool := fun s => s == "a.mp3" || s == "b.mp3"

/-- A one-object knowledge base used by witnesses. -/
def itemDua : List (String × JValue) :=
  [("title", JValue.str "Morning dua"), ("audio", JValue.str "dua.mp3")]

/-! ## Helper lemmas: characters and substrings -/

theorem toNat_ofNat_of_valid (n : Nat) (h : Nat.isValidChar n) :
    (Char.ofNat n).toNat = n := by
  rw [Char.ofNat, dif_pos h]
  rfl

theorem pyCharLower_not_upper (c : Char) :
    ¬(65 ≤ (pyCharLower c).toNat ∧ (pyCharLower c).toNat ≤ 90) := by
  rw [pyCharLower]
  split
  · next h =>
    have hv : Nat.isValidChar (c.toNat + 32) := Or.inl (by omega)
    rw [toNat_ofNat_of_valid _ hv]
    omega
  · next h => exact h

theorem pyCharLower_idem (c : Char) :
    pyCharLower (pyCharLower c) = pyCharLower c := by
  have h := pyCharLower_not_upper c
  conv_lhs => rw [pyCharLower]
  rw [if_neg h]

theorem pyLower_idem (s : String) : pyLower (pyLower s) = pyLower s := by
  simp [pyLower, List.map_map, Function.comp_def, pyCharLower_idem]

theorem listStarts_sub : ∀ (n h : List Char), listStarts n h = true → ∀ c, c ∈ n → c ∈ h := by
  intro n
  induction n with
  | nil => intro h _ c hc; simp at hc
  | cons a tl ih =>
    intro h hs c hc
    cases h with
    | nil => simp [listStarts] at hs
    | cons b tl2 =>
      simp only [listStarts, Bool.and_eq_true, beq_iff_eq] at hs
      rcases List.mem_cons.mp hc with rfl | hmem
      · exact List.mem_cons.mpr (Or.inl hs.1)
      · exact List.mem_cons.mpr (Or.inr (ih tl2 hs.2 c hmem))

theorem listIn_sub : ∀ (h n : List Char), listIn n h = true → ∀ c, c ∈ n → c ∈ h := by
  intro h
  induction h with
  | nil =>
    intro n hs c hc
    cases n with
    | nil => simp at hc
    | cons a tl => simp [listIn, listStarts] at hs
  | cons b tl2 ih =>
    intro n hs c hc
    simp only [listIn, Bool.or_eq_true] at hs
    rcases hs with hs | hs
    · exact listStarts_sub n (b :: tl2) hs c hc
    · exact List.mem_cons.mpr (Or.inr (ih n hs c hc))

/-- A needle containing an ASCII capital letter is never found inside a
lower-cased string. -/
theorem pyIn_pyLower_of_upper (needle s : String) (c : Char)
    (hc : c ∈ needle.data) (h1 : 65 ≤ c.toNat) (h2 : c.toNat ≤ 90) :
    pyIn needle (pyLower s) = false := by
  cases hb : pyIn needle (pyLower s) with
  | false => rfl
  | true =>
    exfalso
    have hmem := listIn_sub (pyLower s).data needle.data hb c hc
    have hdata : (pyLower s).data = s.data.map pyCharLower := rfl
    rw [hdata] at hmem
    obtain ⟨c0, _, hc0⟩ := List.mem_map.mp hmem
    exact pyCharLower_not_upper c0 (by rw [hc0]; exact ⟨h1, h2⟩)

/-! ## Helper lemmas: the fuzzy guardrail -/

theorem extractOneAux_snd (scorer : String → String → Nat) (q : String) :
    ∀ (cs : List String) (best : String × Nat),
      (extractOneAux scorer q cs best).2 =
        cs.foldl (fun acc c => Nat.max acc (scorer q c)) best.2 := by
  intro cs
  induction cs with
  | nil => intro best; rfl
  | cons c cs ih =>
    intro best
    rw [extractOneAux, List.foldl_cons]
    split
    · next hlt =>
      rw [ih]
      congr 1
      exact (Nat.max_eq_right (Nat.le_of_lt hlt)).symm
    · next hge =>
      rw [ih]
      congr 1
      exact (Nat.max_eq_left (Nat.le_of_not_lt hge)).symm

theorem extractOne_cons_snd (scorer : String → String → Nat) (q c : String)
    (cs : List String) :
    (extractOneAux scorer q cs (c, scorer q c)).2 =
      ((c :: cs).map (scorer q)).foldl Nat.max 0 := by
  rw [extractOneAux_snd, List.map_cons, List.foldl_cons, List.foldl_map]
  congr 1
  show scorer q c = Nat.max 0 (scorer q c)
  simp [Nat.max_def]

/-- The guardrail passes exactly when the best keyword score reaches 80. -/
theorem is_question_safe_iff (scorer : String → String → Nat) (q : String) :
    is_question_safe scorer q = true ↔ 80 ≤ bestScore scorer q := by
  cases hK : SAFE_KEYWORDS with
  | nil => exact absurd hK (by decide)
  | cons c cs =>
    rw [is_question_safe, fuzzy_match_keywords, bestScore, hK, extractOne]
    rcases he : extractOneAux scorer q cs (c, scorer q c) with ⟨b, sc⟩
    have hsc : sc = ((c :: cs).map (scorer q)).foldl Nat.max 0 := by
      rw [← extractOne_cons_snd scorer q c cs, he]
    rw [← hsc]
    by_cases h80 : 80 ≤ sc
    · simp [h80]
    · simp [h80]

/-! ## Helper lemmas: the knowledge loader -/

theorem foldl_append_eq_map {α β : Type} (f : α → β) :
    ∀ (l : List α) (acc : List β),
      l.foldl (fun ds i => ds ++ [f i]) acc = acc ++ l.map f := by
  intro l
  induction l with
  | nil => intro acc; simp
  | cons x xs ih => intro acc; simp [List.foldl_cons, ih]

theorem load_json_documents_eq_map (raw : List (List (String × JValue))) :
    load_json_documents raw = raw.map mkDocument := by
  rw [load_json_documents]
  simpa using foldl_append_eq_map mkDocument raw []

theorem mkContent_parts :
    ∀ (item : List (String × JValue)) (acc : List String),
      item.foldl
        (fun parts kv =>
          if kv.1 = "category" ∨ kv.1 = "audio" then parts
          else parts ++ [pyCapitalize kv.1 ++ ": " ++ kv.2.pyStr])
        acc
      = acc ++ (item.filter
          (fun kv => !(kv.1 == "category" || kv.1 == "audio"))).map
            (fun kv => pyCapitalize kv.1 ++ ": " ++ kv.2.pyStr) := by
  intro item
  induction item with
  | nil => intro acc; simp
  | cons kv tl ih =>
    intro acc
    rcases eq_or_ne kv.1 "category" with hc | hc
    · simp [List.foldl_cons, List.filter_cons, hc, ih]
    · rcases eq_or_ne kv.1 "audio" with ha | ha
      · simp [List.foldl_cons, List.filter_cons, ha, ih]
      · simp [List.foldl_cons, List.filter_cons, hc, ha, ih]

theorem mkContent_eq (item : List (String × JValue)) :
    mkContent item = String.intercalate "\n"
      ((item.filter (fun kv => !(kv.1 == "category" || kv.1 == "audio"))).map
        (fun kv => pyCapitalize kv.1 ++ ": " ++ kv.2.pyStr)) := by
  rw [mkContent, mkContent_parts]
  rfl

/-! ## Helper lemmas: guardian info -/

theorem guardianBlock_ne_empty (gi : GInfo) : guardianBlock gi ≠ "" := by
  intro h
  have hd : (guardianBlock gi).data = ([] : List Char) := by rw [h]
  rw [guardianBlock] at hd
  simp [String.data_append, List.append_eq_nil] at hd

theorem guardianLoop_of_any (q : String) (gi : GInfo) :
    ∀ ks : List String, ks.any (fun k => pyIn k q) = true →
      guardianLoop q gi ks = guardianBlock gi := by
  intro ks
  induction ks with
  | nil => intro hs; simp at hs
  | cons k tl ih =>
    intro hs
    rw [guardianLoop]
    by_cases hk : pyIn k q = true
    · rw [if_pos hk]
    · rw [if_neg hk]
      rw [List.any_cons, Bool.or_eq_true] at hs
      exact ih (hs.resolve_left hk)

theorem guardianLoop_of_not_any (q : String) (gi : GInfo) :
    ∀ ks : List String, ks.any (fun k => pyIn k q) = false →
      guardianLoop q gi ks = "" := by
  intro ks
  induction ks with
  | nil => intro _; rfl
  | cons k tl ih =>
    intro hs
    rw [List.any_cons, Bool.or_eq_false_iff] at hs
    rw [guardianLoop, if_neg (by simp [hs.1])]
    exact ih hs.2

/-! ## Helper lemmas: the audio resolver -/

theorem resolveFinish_usedParse (f : String → Bool) (out : LoopOut) :
    (resolveFinish f out).usedParse = out.state.usedParse := by
  cases out <;> rfl

theorem docStep_meta (d : Document) (st : RState) (av ar : JValue)
    (ha : alookup d.metadata "audio" = some av)
    (hb : alookup d.metadata "arabic" = some ar) :
    docStep d st = Except.ok { st with ap := some av, arabicText := some ar } := by
  rw [docStep, ha, hb]

theorem docStep_meta_err (d : Document) (st : RState) (av : JValue)
    (ha : alookup d.metadata "audio" = some av)
    (hb : alookup d.metadata "arabic" = none) :
    docStep d st = Except.error { st with ap := some av } := by
  rw [docStep, ha, hb]

theorem resolveAux_cons_ok (f : String → Bool) (d : Document) (rest : List Document)
    (st st2 : RState) (hstep : docStep d st = Except.ok st2) :
    resolveAux f (d :: rest) st =
      match existsCheck f st2 with
      | .raiseExn => .raised st2
      | .breakNow => .broke st2
      | .continueLoop => resolveAux f rest st2 := by
  rw [resolveAux, hstep]

theorem resolveAux_cons_err (f : String → Bool) (d : Document) (rest : List Document)
    (st st2 : RState) (hstep : docStep d st = Except.error st2) :
    resolveAux f (d :: rest) st = .raised st2 := by
  rw [resolveAux, hstep]

theorem resolveAux_noParse (f : String → Bool) :
    ∀ (docs : List Document) (st : RState),
      (∀ d ∈ docs, (alookup d.metadata "audio").isSome = true) →
      (resolveAux f docs st).state.usedParse = st.usedParse := by
  intro docs
  induction docs with
  | nil => intro st _; rfl
  | cons d rest ih =>
    intro st h
    have hd := h d (List.mem_cons_self d rest)
    rcases ha : alookup d.metadata "audio" with _ | av
    · rw [ha] at hd; simp at hd
    · rcases hb : alookup d.metadata "arabic" with _ | ar
      · rw [resolveAux_cons_err f d rest st _ (docStep_meta_err d st av ha hb)]
        rfl
      · rw [resolveAux_cons_ok f d rest st _ (docStep_meta d st av ar ha hb)]
        cases hec : existsCheck f { st with ap := some av, arabicText := some ar } with
        | raiseExn => rfl
        | breakNow => rfl
        | continueLoop =>
          exact ih { st with ap := some av, arabicText := some ar }
            (fun d2 hd2 => h d2 (List.mem_cons_of_mem _ hd2))

theorem resolveAux_good (f : String → Bool) :
    ∀ (docs : List Document) (st : RState),
      (∀ d ∈ docs, goodAudioMeta d) →
      audioPost f st = ⟨AudioOutcome.noAudio, false⟩ →
      ((∀ d, docs.find? (audioHit f) = some d →
          resolveFinish f (resolveAux f docs st) =
            ⟨AudioOutcome.offered (docAudioStr d) (docArabic d), false⟩)
        ∧ (docs.find? (audioHit f) = none →
          resolveFinish f (resolveAux f docs st) = ⟨AudioOutcome.noAudio, false⟩)) := by
  intro docs
  induction docs with
  | nil =>
    intro st _ hpost
    refine ⟨fun d hfind => by simp at hfind, fun _ => ?_⟩
    simpa [resolveAux, resolveFinish] using hpost
  | cons d0 rest ih =>
    intro st h hpost
    have hused : st.usedParse = false := congrArg AudioResult.usedParse hpost
    obtain ⟨⟨s, hs⟩, har⟩ := h d0 (List.mem_cons_self d0 rest)
    obtain ⟨ar, har2⟩ := Option.isSome_iff_exists.mp har
    have hstr : docAudioStr d0 = s := by rw [docAudioStr, hs]
    rw [resolveAux_cons_ok f d0 rest st _ (docStep_meta d0 st _ ar hs har2)]
    by_cases hhit : audioHit f d0 = true
    · have hne : (!s.data.isEmpty) = true ∧ f s = true := by
        rw [audioHit, hstr] at hhit
        exact Bool.and_eq_true_iff.mp hhit
      have hec : existsCheck f { st with ap := some (JValue.str s), arabicText := some ar }
          = .breakNow := by
        rw [existsCheck]
        simp [JValue.pyTruthy, hne.1, hne.2]
      simp only [hec]
      constructor
      · intro d hfind
        rw [List.find?_cons_of_pos _ hhit] at hfind
        injection hfind with hd
        subst hd
        rw [resolveFinish, audioPost, audioPostOutcome]
        simp [JValue.pyTruthy, hne.1, hne.2, hstr, docArabic, har2, hused]
      · intro hnone
        rw [List.find?_cons_of_pos _ hhit] at hnone
        simp at hnone
    · have hhitf : audioHit f d0 = false := by
        cases hx : audioHit f d0
        · rfl
        · exact absurd hx hhit
      have hor : (!s.data.isEmpty) = false ∨ f s = false := by
        rw [audioHit, hstr] at hhitf
        exact Bool.and_eq_false_iff.mp hhitf
      have hec : existsCheck f { st with ap := some (JValue.str s), arabicText := some ar }
          = .continueLoop := by
        rw [existsCheck]
        rcases hor with he | he
        · simp [JValue.pyTruthy, he]
        · cases hbool : (!s.data.isEmpty) <;> simp [JValue.pyTruthy, hbool, he]
      simp only [hec]
      have hpost2 : audioPost f { st with ap := some (JValue.str s), arabicText := some ar }
          = ⟨AudioOutcome.noAudio, false⟩ := by
        rw [audioPost, audioPostOutcome]
        rcases hor with he | he
        · simp [JValue.pyTruthy, he, hused]
        · cases hbool : (!s.data.isEmpty) <;> simp [JValue.pyTruthy, hbool, he, hused]
      have hrec := ih { st with ap := some (JValue.str s), arabicText := some ar }
        (fun d2 hd2 => h d2 (List.mem_cons_of_mem _ hd2)) hpost2
      rw [List.find?_cons_of_neg _ (by simp [hhitf])]
      exact hrec

/-! ## Claim theorems -/

/-- Claim C1: `is_question_safe` is true iff the best fuzzy-match score of the
normalized query against the fixed safe-keyword list is at least 80 (on the
scorer's 0-100 scale); and every non-empty query whose normalized form scores
below 80 stops at the guardrail with the out-of-scope warning — no guardian
lookup, no similarity search, no fallback search, no remote-model call (the
run then dies on line 194's unassigned `filtered_docs`). -/
theorem C1_guardrail_gate (scorer : String → String → Nat)
    (search : String → Nat → List Document) (llm : String → String)
    (full_doc_list : List Document) ( prompt_prefix : String) (gi : GInfo)
    (existsFn : String → Bool) (uq : String) :
    (is_question_safe scorer (normalize_query uq) = true ↔
      80 ≤ bestScore scorer (normalize_query uq))
    ∧ (uq ≠ "" → bestScore scorer (normalize_query uq) < 80 →
        pipeline scorer search llm full_doc_list prompt_prefix gi existsFn uq =
          { warned := true, guardianLookup := false, guardianShown := none,
            searchCalled := false, filterCalled := false, fallbackCalled := false,
            llmCalled := false, answer := none, filtered_docs := none,
            nameError := true, audio := none }) := by
  refine ⟨is_question_safe_iff scorer (normalize_query uq), fun hne hlt => ?_⟩
  have hsafe : is_question_safe scorer (normalize_query uq) = false := by
    cases hb : is_question_safe scorer (normalize_query uq)
    · rfl
    · exact absurd ((is_question_safe_iff _ _).mp hb) (by omega)
  simp [pipeline, hne, hsafe]

set_option maxRecDepth 8192 in
/-- Witness for C1 at a concrete scorer that gives every keyword score 0. -/
theorem C1_guardrail_gate_witness :
    pipeline scorerZero searchNone llmStub [] "" [] fsNone "hello" =
      { warned := true, guardianLookup := false, guardianShown := none,
        searchCalled := false, filterCalled := false, fallbackCalled := false,
        llmCalled := false, answer := none, filtered_docs := none,
        nameError := true, audio := none } :=
  (C1_guardrail_gate scorerZero searchNone llmStub [] "" [] fsNone "hello").2
    (by decide) (by decide)

/-- Claim C2: a non-empty query that passes the guardrail and whose normalized
form contains a trigger word gets the formatted guardian-info block, with no
similarity search, no topic filtering, no fallback search and no remote-model
call; any matching trigger yields the same block (so the first match winning
changes nothing); and when the guardrail fails the trigger check never runs. -/
theorem C2_guardian_branch (scorer : String → String → Nat)
    (search : String → Nat → List Document) (llm : String → String)
    (full_doc_list : List Document) ( prompt_prefix : String) (gi : GInfo)
    (existsFn : String → Bool) (uq : String) :
    (uq ≠ "" → is_question_safe scorer (normalize_query uq) = true →
      hasTrigger (normalize_query uq) = true →
      pipeline scorer search llm full_doc_list prompt_prefix gi existsFn uq =
        { warned := false, guardianLookup := true,
          guardianShown := some (guardianBlock gi),
          searchCalled := false, filterCalled := false, fallbackCalled := false,
          llmCalled := false, answer := none, filtered_docs := none,
          nameError := true, audio := none })
    ∧ (hasTrigger (normalize_query uq) = true →
        get_guardian_response (normalize_query uq) gi = guardianBlock gi)
    ∧ (is_question_safe scorer (normalize_query uq) = false →
        (pipeline scorer search llm full_doc_list prompt_prefix gi existsFn uq).guardianLookup
          = false) := by
  have hblock : hasTrigger (normalize_query uq) = true →
      get_guardian_response (normalize_query uq) gi = guardianBlock gi := by
    intro htrig
    rw [hasTrigger] at htrig
    rw [get_guardian_response]
    exact guardianLoop_of_any _ _ _ htrig
  refine ⟨fun hne hsafe htrig => ?_, hblock, fun hsafe => ?_⟩
  · have hresp := hblock htrig
    have hneq : ¬(get_guardian_response (normalize_query uq) gi = "") := by
      rw [hresp]
      exact guardianBlock_ne_empty gi
    simp [pipeline, hne, hsafe, hresp, guardianBlock_ne_empty gi]
  · by_cases huq : uq = "" <;> simp [pipeline, huq, hsafe]

set_option maxRecDepth 8192 in
/-- Witness for C2 at the trigger query `phone` with an always-100 scorer. -/
theorem C2_guardian_branch_witness :
    pipeline scorerFull searchNone llmStub [] "" [] fsNone "phone" =
      { warned := false, guardianLookup := true,
        guardianShown := some (guardianBlock []),
        searchCalled := false, filterCalled := false, fallbackCalled := false,
        llmCalled := false, answer := none, filtered_docs := none,
        nameError := true, audio := none } :=
  (C2_guardian_branch scorerFull searchNone llmStub [] "" [] fsNone "phone").1
    (by decide) (by decide) (by decide)

/-- Counterexample to C4 as stated: the keyword list is matched
case-sensitively, so the keyword `Quran` never matches the lowercased content
`quran` and a document about the Quran alone is dropped, although the claim's
case-insensitive reading would keep it. -/
theorem C4_counterexample :
    filter_documents_by_topic [docQuran] = []
    ∧ "Quran" ∈ SAFE_KEYWORDS
    ∧ pyIn (pyLower "Quran") (pyLower docQuran.page_content) = true := by
  refine ⟨by decide, by decide, by decide⟩

/-- Claim C4 (amended): `filter_documents_by_topic` keeps a document iff its
lowercased content contains at least one keyword written exactly as in
`SAFE_KEYWORDS` (case-sensitively); consequently the four keywords that
contain a capital letter (`Islam`, `Allah`, `Prophet`, `Quran`) can never
match any document. -/
theorem C4_case_sensitive_filter :
    (∀ (docs : List Document) (d : Document),
      d ∈ filter_documents_by_topic docs ↔
        d ∈ docs ∧ ∃ kw ∈ SAFE_KEYWORDS, pyIn kw (pyLower d.page_content) = true)
    ∧ (∀ s : String,
        pyIn "Islam" (pyLower s) = false ∧ pyIn "Allah" (pyLower s) = false
        ∧ pyIn "Prophet" (pyLower s) = false ∧ pyIn "Quran" (pyLower s) = false) := by
  constructor
  · intro docs d
    rw [filter_documents_by_topic, List.mem_filter, List.any_eq_true]
  · intro s
    exact ⟨pyIn_pyLower_of_upper _ s 'I' (by decide) (by decide) (by decide),
      pyIn_pyLower_of_upper _ s 'A' (by decide) (by decide) (by decide),
      pyIn_pyLower_of_upper _ s 'P' (by decide) (by decide) (by decide),
      pyIn_pyLower_of_upper _ s 'Q' (by decide) (by decide) (by decide)⟩

/-- Claim C8: the loader returns one `Document` per source object, in source
order, whose content is the newline-join of `"Key: value"` lines for every
field except `category` and `audio`, which live only in the metadata. -/
theorem C8_loader_content (raw : List (List (String × JValue))) :
    load_json_documents raw =
      raw.map (fun item => Document.mk
        (String.intercalate "\n"
          ((item.filter (fun kv => !(kv.1 == "category" || kv.1 == "audio"))).map
            (fun kv => pyCapitalize kv.1 ++ ": " ++ kv.2.pyStr)))
        (mkMetadata item))
    ∧ (load_json_documents raw).length = raw.length := by
  have h := load_json_documents_eq_map raw
  constructor
  · rw [h]
    have hfun : ∀ item, mkDocument item = Document.mk
        (String.intercalate "\n"
          ((item.filter (fun kv => !(kv.1 == "category" || kv.1 == "audio"))).map
            (fun kv => pyCapitalize kv.1 ++ ": " ++ kv.2.pyStr)))
        (mkMetadata item) := by
      intro item
      rw [mkDocument, mkContent_eq]
    exact List.map_congr_left (fun item _ => hfun item)
  · rw [h, List.length_map]

/-- Claim C10: both retrieval filters return sublists of their input — every
kept document is an input element, order is preserved, and no document is
duplicated or created. -/
theorem C10_filters_are_sublists (q : String) (docs : List Document) :
    List.Sublist (filter_documents_by_topic docs) docs
    ∧ List.Sublist (fallback_keyword_search q docs) docs
    ∧ (∀ d, d ∈ filter_documents_by_topic docs → d ∈ docs)
    ∧ (∀ d, d ∈ fallback_keyword_search q docs → d ∈ docs)
    ∧ (∀ d, (filter_documents_by_topic docs).count d ≤ docs.count d)
    ∧ (∀ d, (fallback_keyword_search q docs).count d ≤ docs.count d) :=
  ⟨List.filter_sublist docs, List.filter_sublist docs,
    fun _ hd => (List.filter_sublist docs).subset hd,
    fun _ hd => (List.filter_sublist docs).subset hd,
    fun d => (List.filter_sublist docs).count_le d,
    fun d => (List.filter_sublist docs).count_le d⟩

/-- Helper: the pipeline on a non-empty, guardrail-passing, trigger-free
query runs retrieval, filtering and — when filtering is empty — the
fallback. -/
theorem pipeline_retrieval (scorer : String → String → Nat)
    (search : String → Nat → List Document) (llm : String → String)
    (full_doc_list : List Document) ( prompt_prefix : String) (gi : GInfo)
    (existsFn : String → Bool) (uq : String)
    (hne : uq ≠ "")
    (hsafe : is_question_safe scorer (normalize_query uq) = true)
    (hga : get_guardian_response (normalize_query uq) gi = "") :
    pipeline scorer search llm full_doc_list prompt_prefix gi existsFn uq =
      (let query := normalize_query uq
       let filtered0 := filter_documents_by_topic (search query 2)
       let fb := filtered0.isEmpty
       let fd := if fb then fallback_keyword_search query full_doc_list else filtered0
       let noDocs := fd.isEmpty
       { warned := false, guardianLookup := true, guardianShown := none,
         searchCalled := true, filterCalled := true, fallbackCalled := fb,
         llmCalled := !noDocs,
         answer := some (if noDocs then "I don\x27t know."
                         else call_openai_api llm query fd prompt_prefix),
         filtered_docs := some fd, nameError := false,
         audio := if noDocs then none else some (resolveAudio existsFn fd) }) := by
  simp [pipeline, hne, hsafe, hga]

/-- Counterexample to C3 as stated: on the query `" water "` (whitespace
around `water`) the fallback matches the *normalized* query `"water"`, not
the lowercased raw query `" water "`; the document `water` is kept and the
remote model is called, while the claim's reading (no document contains
`" water "`) demands the answer `I don't know.` with no remote call. -/
theorem C3_counterexample :
    pyIn (pyLower " water ") (pyLower docWater.page_content) = false
    ∧ fallback_keyword_search (normalize_query " water ") [docWater] = [docWater]
    ∧ (pipeline scorerFull searchNone llmStub [docWater] "" [] fsNone " water ").llmCalled
        = true
    ∧ (pipeline scorerFull searchNone llmStub [docWater] "" [] fsNone " water ").answer
        = some "LLM-ANSWER" := by
  exact ⟨by decide, by decide, by decide, by decide⟩

/-- Claim C3 (amended): when topic filtering of the similarity results is
empty, the pipeline falls back to scanning every loaded document, keeping
exactly those whose lowercased content contains the *normalized* (stripped
and lowercased) query; if that is also empty the answer is exactly
`I don't know.` and no remote-model call (and no audio lookup) happens. -/
theorem C3_fallback_and_dont_know (scorer : String → String → Nat)
    (search : String → Nat → List Document) (llm : String → String)
    (full_doc_list : List Document) ( prompt_prefix : String) (gi : GInfo)
    (existsFn : String → Bool) (uq : String)
    (hne : uq ≠ "")
    (hsafe : is_question_safe scorer (normalize_query uq) = true)
    (htrig : hasTrigger (normalize_query uq) = false)
    (hfilter : filter_documents_by_topic (search (normalize_query uq) 2) = []) :
    (pipeline scorer search llm full_doc_list prompt_prefix gi existsFn uq).fallbackCalled
      = true
    ∧ (pipeline scorer search llm full_doc_list prompt_prefix gi existsFn uq).filtered_docs
      = some (fallback_keyword_search (normalize_query uq) full_doc_list)
    ∧ (∀ d, d ∈ fallback_keyword_search (normalize_query uq) full_doc_list ↔
        d ∈ full_doc_list ∧ pyIn (normalize_query uq) (pyLower d.page_content) = true)
    ∧ (fallback_keyword_search (normalize_query uq) full_doc_list = [] →
        (pipeline scorer search llm full_doc_list prompt_prefix gi existsFn uq).answer
          = some "I don\x27t know."
        ∧ (pipeline scorer search llm full_doc_list prompt_prefix gi existsFn uq).llmCalled
          = false
        ∧ (pipeline scorer search llm full_doc_list prompt_prefix gi existsFn uq).audio
          = none) := by
  have hga : get_guardian_response (normalize_query uq) gi = "" := by
    rw [hasTrigger] at htrig
    rw [get_guardian_response]
    exact guardianLoop_of_not_any _ _ _ htrig
  have hpipe := pipeline_retrieval scorer search llm full_doc_list prompt_prefix gi
    existsFn uq hne hsafe hga
  have hqlow : pyLower (normalize_query uq) = normalize_query uq := by
    rw [normalize_query]
    exact pyLower_idem _
  refine ⟨?_, ?_, ?_, ?_⟩
  · rw [hpipe]
    simp [hfilter]
  · rw [hpipe]
    simp [hfilter]
  · intro d
    rw [fallback_keyword_search, List.mem_filter, hqlow]
  · intro hfb
    rw [hpipe]
    simp [hfilter, hfb]

set_option maxRecDepth 8192 in
/-- Witness for C3 (amended): an in-scope query with no vector hits and no
substring hits answers exactly `I don't know.` with no remote call. -/
theorem C3_fallback_and_dont_know_witness :
    (pipeline scorerFull searchNone llmStub [] "" [] fsNone "water").answer
      = some "I don\x27t know."
    ∧ (pipeline scorerFull searchNone llmStub [] "" [] fsNone "water").llmCalled = false :=
  ⟨((C3_fallback_and_dont_know scorerFull searchNone llmStub [] "" [] fsNone "water"
      (by decide) (by decide) (by decide) (by decide)).2.2.2 (by decide)).1,
   ((C3_fallback_and_dont_know scorerFull searchNone llmStub [] "" [] fsNone "water"
      (by decide) (by decide) (by decide) (by decide)).2.2.2 (by decide)).2.1⟩

/-- Counterexample to C5 as stated: a first document whose metadata carries an
*existing* audio path but no `arabic` entry raises `KeyError` in the metadata
branch, which only the outer handler catches — the whole resolver aborts
instead of yielding that document's path (or skipping to the next candidate,
which alone would resolve fine). -/
theorem C5_counterexample :
    (resolveAudio fsAudio [docAudioOnly, docAudioFull]).outcome = AudioOutcome.aborted
    ∧ fsAudio "a.mp3" = true
    ∧ resolveAudio fsAudio [docAudioFull] =
        ⟨AudioOutcome.offered "b.mp3" (JValue.str "bismillah"), false⟩ := by
  exact ⟨by decide, by decide, by decide⟩

/-- Claim C5 (amended): for documents whose metadata carries a string audio
path and an arabic entry (as every loader-built document does), the resolver
returns the audio path of the first document whose non-empty path exists on
disk, skipping documents whose path does not exist, and offers no audio when
none exists; only the content re-parsing branch swallows exceptions
per-document — an exception in the metadata branch aborts the whole
resolver. -/
theorem C5_first_existing_audio (existsFn : String → Bool) (docs : List Document)
    (hgood : ∀ d ∈ docs, goodAudioMeta d) :
    (∀ d, docs.find? (audioHit existsFn) = some d →
      resolveAudio existsFn docs =
        ⟨AudioOutcome.offered (docAudioStr d) (docArabic d), false⟩)
    ∧ (docs.find? (audioHit existsFn) = none →
      resolveAudio existsFn docs = ⟨AudioOutcome.noAudio, false⟩) :=
  resolveAux_good existsFn docs ⟨none, none, false⟩ hgood rfl

/-- Witness for C5 (amended): a document with an existing `b.mp3` audio path
resolves to exactly that path; with no existing path, no audio is offered. -/
theorem C5_first_existing_audio_witness :
    resolveAudio fsAudio [docAudioFull] =
      ⟨AudioOutcome.offered (docAudioStr docAudioFull) (docArabic docAudioFull), false⟩
    ∧ resolveAudio fsNone [docAudioFull] = ⟨AudioOutcome.noAudio, false⟩ :=
  ⟨(C5_first_existing_audio fsAudio [docAudioFull]
      (by
        intro d hd
        rw [List.mem_singleton] at hd
        subst hd
        exact ⟨⟨"b.mp3", rfl⟩, rfl⟩)).1
    docAudioFull (by decide),
   (C5_first_existing_audio fsNone [docAudioFull]
      (by
        intro d hd
        rw [List.mem_singleton] at hd
        subst hd
        exact ⟨⟨"b.mp3", rfl⟩, rfl⟩)).2
    (by decide)⟩

/-- Claim C6: every loader-built document's metadata contains the five named
keys, and each key defaults (`category` to `unknown`, the others to the empty
string) whenever the source object lacks that field. -/
theorem C6_metadata_defaults (raw : List (List (String × JValue))) (d : Document)
    (hd : d ∈ load_json_documents raw) :
    ((alookup d.metadata "category").isSome = true
      ∧ (alookup d.metadata "audio").isSome = true
      ∧ (alookup d.metadata "arabic").isSome = true
      ∧ (alookup d.metadata "usage").isSome = true
      ∧ (alookup d.metadata "translation").isSome = true)
    ∧ ∃ item ∈ raw, d = mkDocument item
        ∧ (alookup item "category" = none →
            alookup d.metadata "category" = some (JValue.str "unknown"))
        ∧ (alookup item "audio" = none →
            alookup d.metadata "audio" = some (JValue.str ""))
        ∧ (alookup item "arabic" = none →
            alookup d.metadata "arabic" = some (JValue.str ""))
        ∧ (alookup item "usage" = none →
            alookup d.metadata "usage" = some (JValue.str ""))
        ∧ (alookup item "translation" = none →
            alookup d.metadata "translation" = some (JValue.str "")) := by
  rw [load_json_documents_eq_map] at hd
  obtain ⟨item, hitem, rfl⟩ := List.mem_map.mp hd
  constructor
  · refine ⟨?_, ?_, ?_, ?_, ?_⟩ <;> simp [mkDocument, mkMetadata, alookup]
  · refine ⟨item, hitem, rfl, ?_, ?_, ?_, ?_, ?_⟩ <;> intro hnone <;>
      simp [mkDocument, mkMetadata, alookup, itemGet, hnone]

/-- Witness for C6 on a one-object knowledge base whose object has no
`category`, `arabic`, `usage` or `translation` fields. -/
theorem C6_metadata_defaults_witness :
    (alookup (mkDocument itemDua).metadata "category").isSome = true
    ∧ alookup (mkDocument itemDua).metadata "category" = some (JValue.str "unknown") := by
  have h := C6_metadata_defaults [itemDua] (mkDocument itemDua)
    (by simp [load_json_documents_eq_map])
  refine ⟨h.1.1, ?_⟩
  obtain ⟨item, hitem, heq, hcat, _⟩ := h.2
  rw [List.mem_singleton] at hitem
  subst hitem
  exact hcat (by decide)

/-- Claim C7: a missing guardian-info file loads as the empty mapping without
raising, and every guardian field in the response block then renders as
`N/A`. -/
theorem C7_guardian_defaults (fileContent : GInfo) (q : String)
    (htrig : hasTrigger q = true) :
    load_guardian_info false fileContent = ([] : GInfo)
    ∧ get_guardian_response q (load_guardian_info false fileContent) =
      "\n**👨‍👩‍👧 Guardian Info:**\n\n- **Primary Guardian:** N/A (N/A)\n- **Phone:** N/A\n\n**📞 Emergency Contact:**\n\n- **Name:** N/A (N/A)\n- **Phone:** N/A\n\n**🏡 Address:** N/A\n" := by
  refine ⟨rfl, ?_⟩
  rw [hasTrigger] at htrig
  rw [show load_guardian_info false fileContent = ([] : GInfo) from rfl,
    get_guardian_response, guardianLoop_of_any q [] GUARDIAN_TRIGGERS htrig]
  rfl

/-- Witness for C7 at the query `phone` and an arbitrary (unread) file
content. -/
theorem C7_guardian_defaults_witness :
    load_guardian_info false [("guardian_name", GValue.str "Zed")] = ([] : GInfo)
    ∧ get_guardian_response "phone"
        (load_guardian_info false [("guardian_name", GValue.str "Zed")]) =
      "\n**👨‍👩‍👧 Guardian Info:**\n\n- **Primary Guardian:** N/A (N/A)\n- **Phone:** N/A\n\n**📞 Emergency Contact:**\n\n- **Name:** N/A (N/A)\n- **Phone:** N/A\n\n**🏡 Address:** N/A\n" :=
  C7_guardian_defaults [("guardian_name", GValue.str "Zed")] "phone" (by decide)

/-- Claim C9: every loader-built document has the `audio` key in its
metadata, so on any list of loader-built documents the audio resolver never
executes its content re-parsing fallback branch. -/
theorem C9_no_reparse_for_loader_docs (raw : List (List (String × JValue)))
    (docs : List Document) (existsFn : String → Bool)
    (hdocs : ∀ d ∈ docs, d ∈ load_json_documents raw) :
    (resolveAudio existsFn docs).usedParse = false := by
  have hmeta : ∀ d ∈ docs, (alookup d.metadata "audio").isSome = true := by
    intro d hdmem
    have hm := hdocs d hdmem
    rw [load_json_documents_eq_map] at hm
    obtain ⟨item, _, rfl⟩ := List.mem_map.mp hm
    simp [mkDocument, mkMetadata, alookup]
  rw [resolveAudio, resolveFinish_usedParse,
    resolveAux_noParse existsFn docs ⟨none, none, false⟩ hmeta]

/-- Witness for C9 on the one-document knowledge base. -/
theorem C9_no_reparse_for_loader_docs_witness :
    (resolveAudio fsNone [mkDocument itemDua]).usedParse = false :=
  C9_no_reparse_for_loader_docs [itemDua] [mkDocument itemDua] fsNone
    (by simp [load_json_documents_eq_map])

end IslamKids
